import Mathlib

/-!
# Verification of the Yalidine SDK core (HTTP request pipeline, quota tracker, cache)

Shallow embedding of the TypeScript sources:
  * `src/http/client.ts`    — `HTTPClient` (request loop, retry/backoff, quota update)
  * `src/database/memory.ts`— `YalidineMemoryDatabase` (TTL cache)
  * `src/yalidine.ts`       — `Yalidine` facade (config validation, init)

JavaScript runtime values that matter to the embedded code paths
(`undefined`, `NaN`, string truthiness, `||` vs `??` defaulting) are modelled
explicitly so that the Lean definitions mirror the source expressions.
-/

namespace Yalidine

/-- A JavaScript numeric value as it can appear in the quota bookkeeping:
an actual integer, `NaN` (e.g. from `Number.parseInt` on a non-numeric
string), or `undefined` (a missing object property). -/
inductive JSNum where
  | int (n : Int)
  | nan
  | undefined
deriving DecidableEq, Repr

/-- Digits prefix of a character list. -/
def takeDigits (cs : List Char) : List Char :=
  cs.takeWhile Char.isDigit

/-- Numeric value of a (non-empty) digit list, most significant first. -/
def digitsToNat (cs : List Char) : Nat :=
  cs.foldl (fun acc c => acc * 10 + (c.toNat - 48)) 0

/-- `Number.parseInt(s, 10)`: skip leading whitespace, accept an optional
sign, then read the longest digit prefix; if there is no digit, the result
is `NaN`. -/
def parseIntJS (s : String) : JSNum :=
  let cs := s.data.dropWhile (fun c => c = ' ' ∨ c = '\t' ∨ c = '\n')
  match cs with
  | '-' :: rest =>
      let ds := takeDigits rest
      if ds.isEmpty then .nan else .int (-(digitsToNat ds : Int))
  | '+' :: rest =>
      let ds := takeDigits rest
      if ds.isEmpty then .nan else .int (digitsToNat ds)
  | _ =>
      let ds := takeDigits cs
      if ds.isEmpty then .nan else .int (digitsToNat ds)

/-- Response headers as a list of name/value pairs. -/
abbrev Headers := List (String × String)

/-- `Headers.get(name)`: lookup by name, `null` (`none`) when the header
is absent.  The `Headers` class stores names normalized to lowercase and
all lookups in the client use lowercase names, so the embedding matches
names exactly. -/
def headersGet (hs : Headers) (name : String) : Option String :=
  (hs.find? (fun p => p.1 == name)).map (fun p => p.2)

/-- The quota tracker state (`QuotaStatus` in `src/types.ts`): four
remaining-request counters plus a last-update timestamp.  The counters are
`JSNum` because the source's update routine can store `NaN`/`undefined`
into them. -/
structure QuotaStatus where
  secondQuotaLeft : JSNum
  minuteQuotaLeft : JSNum
  hourQuotaLeft : JSNum
  dayQuotaLeft : JSNum
  lastUpdate : Nat
deriving DecidableEq, Repr

/-- The seed quota installed by the `HTTPClient` constructor. -/
def initialQuotaStatus : QuotaStatus :=
  { secondQuotaLeft := .int 5
    minuteQuotaLeft := .int 50
    hourQuotaLeft := .int 1000
    dayQuotaLeft := .int 10000
    lastUpdate := 0 }

/-- JavaScript property access `q[name]` on a `QuotaStatus` object: the
object only has the four `...QuotaLeft` keys (and `lastUpdate`), any other
key yields `undefined`. -/
def quotaProp (q : QuotaStatus) (name : String) : JSNum :=
  if name = "secondQuotaLeft" then q.secondQuotaLeft
  else if name = "minuteQuotaLeft" then q.minuteQuotaLeft
  else if name = "hourQuotaLeft" then q.hourQuotaLeft
  else if name = "dayQuotaLeft" then q.dayQuotaLeft
  else .undefined

/-- The inner `getHeader` of `HTTPClient.updateQuotaStatus`:
`value ? Number.parseInt(value, 10) : this.quotaStatus[name as keyof QuotaStatus]`.
A present non-empty header is parsed; otherwise the fallback reads the
property of the previous quota object *keyed by the header name itself*. -/
def getHeaderQuota (q : QuotaStatus) (hs : Headers) (name : String) : JSNum :=
  match headersGet hs name with
  | some v => if v = "" then quotaProp q name else parseIntJS v
  | none => quotaProp q name

/-- `HTTPClient.updateQuotaStatus`: rebuild the whole quota object from the
response headers, stamping the current time. -/
def updateQuotaStatus (q : QuotaStatus) (hs : Headers) (now : Nat) : QuotaStatus :=
  { secondQuotaLeft := getHeaderQuota q hs "x-second-quota-left"
    minuteQuotaLeft := getHeaderQuota q hs "x-minute-quota-left"
    hourQuotaLeft := getHeaderQuota q hs "x-hour-quota-left"
    dayQuotaLeft := getHeaderQuota q hs "x-day-quota-left"
    lastUpdate := now }

/-- `HTTPClient.getRetryAfter`:
`retryAfter ? Number.parseInt(retryAfter, 10) : 60`. -/
def getRetryAfter (hs : Headers) : JSNum :=
  match headersGet hs "retry-after" with
  | some v => if v = "" then .int 60 else parseIntJS v
  | none => .int 60

/-! ## Request engine (`HTTPClient.request`) -/

/-- Parsed JSON payload of a response: `null` (empty body) or a parsed
document, kept abstract as its raw text. -/
inductive Payload where
  | null
  | parsed (v : String)
deriving DecidableEq, Repr

/-- Raw body of a received response, as far as `JSON.parse` is concerned:
empty text, text that parses to a document, or text that throws. -/
inductive Body where
  | empty
  | json (v : String)
  | malformed
deriving DecidableEq, Repr

/-- What one `fetch` call does: abort on timeout (`AbortError`), fail at
the transport level (`TypeError` mentioning fetch), or deliver a response
with a status, headers and a body. -/
inductive FetchOutcome where
  | abort
  | networkFail
  | response (status : Nat) (hs : Headers) (body : Body)
deriving DecidableEq, Repr

/-- The error taxonomy thrown by `HTTPClient.request`:
`YalidineAPIError` (message, status), `YalidineRateLimitError`
(retry-after), `YalidineNetworkError` (message). -/
inductive ReqError where
  | apiError (msg : String) (status : Nat)
  | rateLimit (retryAfter : JSNum)
  | network (msg : String)
deriving DecidableEq, Repr

/-- A successful `HTTPResponse`: parsed data, status, headers, and a
snapshot of the quota status. -/
structure HTTPSuccess where
  data : Payload
  status : Nat
  headers : Headers
  quota : QuotaStatus
deriving DecidableEq, Repr

/-- `response.ok`: status in the 2xx range. -/
def statusOk (status : Nat) : Bool :=
  200 ≤ status && status < 300

/-- Status-code interpretation of `HTTPClient.request` after the body has
parsed: 2xx succeeds, 429 throws a rate-limit error carrying the
retry-after header, other statuses throw an API error. -/
def interpretStatus (status : Nat) (hs : Headers) (q : QuotaStatus) (data : Payload) :
    Except ReqError HTTPSuccess :=
  if statusOk status then
    .ok { data := data, status := status, headers := hs, quota := q }
  else if status = 429 then
    .error (.rateLimit (getRetryAfter hs))
  else
    .error (.apiError "API request failed" status)

/-- One iteration of the attempt loop body, up to the catch clause: returns
the attempt's result together with the quota state after the attempt.
An abort is caught and wrapped as `YalidineNetworkError "Request timeout"`,
a transport failure as `YalidineNetworkError "Network error"`.  On a
received response the quota is updated from the headers first, then the
body is parsed (empty text gives a `null` payload, unparseable text throws
`YalidineAPIError "Invalid JSON response from API"` with the raw status),
then the status is interpreted. -/
def runAttempt (q : QuotaStatus) (now : Nat) (f : FetchOutcome) :
    Except ReqError HTTPSuccess × QuotaStatus :=
  match f with
  | .abort => (.error (.network "Request timeout"), q)
  | .networkFail => (.error (.network "Network error"), q)
  | .response status hs body =>
      let q' := updateQuotaStatus q hs now
      match body with
      | .malformed => (.error (.apiError "Invalid JSON response from API" status), q')
      | .empty => (interpretStatus status hs q' .null, q')
      | .json v => (interpretStatus status hs q' (.parsed v), q')

/-- The catch clause rethrows `YalidineAPIError` and
`YalidineRateLimitError` immediately; only network/timeout errors stay in
the loop to be retried. -/
def isRetryableError : ReqError → Bool
  | .network _ => true
  | .apiError _ _ => false
  | .rateLimit _ => false

/-- Backoff before the retry that follows failed attempt number `attempt`:
`Math.min(1000 * Math.pow(2, attempt), 10000)`. -/
def retryDelay (attempt : Nat) : Nat :=
  min (1000 * 2 ^ attempt) 10000

deriving instance DecidableEq for Except

/-- Observable outcome of a whole `request` call: the returned value or
thrown error, the number of attempts made, the backoff delays slept, and
the final quota-tracker state. -/
structure LoopResult where
  result : Except ReqError HTTPSuccess
  attempts : Nat
  delays : List Nat
  quota : QuotaStatus
deriving DecidableEq, Repr

/-- The attempt loop of `HTTPClient.request`, with `fuel` the number of
retries still allowed (`maxRetries - attempt`).  On success return; on a
non-retryable error or on the final attempt rethrow; otherwise sleep the
backoff delay and try again. -/
def requestAux (transport : Nat → FetchOutcome) (now : Nat) :
    Nat → Nat → QuotaStatus → LoopResult
  | attempt, fuel, q =>
    match runAttempt q now (transport attempt) with
    | (.ok s, q') =>
        { result := .ok s, attempts := attempt + 1, delays := [], quota := q' }
    | (.error e, q') =>
        if isRetryableError e then
          match fuel with
          | 0 => { result := .error e, attempts := attempt + 1, delays := [], quota := q' }
          | fuel' + 1 =>
              let r := requestAux transport now (attempt + 1) fuel' q'
              { r with delays := retryDelay attempt :: r.delays }
        else
          { result := .error e, attempts := attempt + 1, delays := [], quota := q' }

/-- `HTTPClient.request` for a deterministic transport (`transport a` is
what the `fetch` of attempt `a` does), starting from the constructor's
seed quota. -/
def request (transport : Nat → FetchOutcome) (maxRetries : Nat) (now : Nat) : LoopResult :=
  requestAux transport now 0 maxRetries initialQuotaStatus

/-! ## Cache store (`YalidineMemoryDatabase`) -/

/-- A cache entry: a value plus an optional absolute expiry instant in
milliseconds (`expiry` is set only when a positive TTL was given). -/
structure CacheEntry (α : Type) where
  value : α
  expiry : Option Nat
deriving DecidableEq, Repr

/-- The in-memory store: a `Map` from keys to entries, embedded as an
association list whose first binding for a key is the current one. -/
abbrev Cache (α : Type) := List (String × CacheEntry α)

/-- `Map.get(key)` on the store (exact key match, `undefined` when absent). -/
def cacheLookup {α : Type} (c : Cache α) (k : String) : Option (CacheEntry α) :=
  (c.find? (fun p => p.1 == k)).map (fun p => p.2)

/-- `Map.set(key, entry)`: the new binding shadows any previous one. -/
def mapSet {α : Type} (c : Cache α) (k : String) (e : CacheEntry α) : Cache α :=
  (k, e) :: c.filter (fun p => p.1 != k)

/-- `Map.delete(key)`. -/
def mapDelete {α : Type} (c : Cache α) (k : String) : Cache α :=
  c.filter (fun p => p.1 != k)

/-- The expiry test used by `get`/`has`/`cleanup`:
`entry.expiry && Date.now() > entry.expiry` (an expiry of `0` is falsy). -/
def entryExpired {α : Type} (e : CacheEntry α) (now : Nat) : Bool :=
  match e.expiry with
  | some exp => exp != 0 && now > exp
  | none => false

/-- `YalidineMemoryDatabase.get`: returns the stored value, or `null` for a
missing entry; an entry whose expiry has passed is deleted and `null` is
returned.  The second component is the store after the call. -/
def dbGet {α : Type} (c : Cache α) (now : Nat) (k : String) : Option α × Cache α :=
  match cacheLookup c k with
  | none => (none, c)
  | some e =>
      if entryExpired e now then (none, mapDelete c k)
      else (some e.value, c)

/-- `YalidineMemoryDatabase.set`: store the value; a truthy positive TTL
(seconds) installs an absolute expiry of `Date.now() + ttl * 1000`. -/
def dbSet {α : Type} (c : Cache α) (now : Nat) (k : String) (v : α) (ttl : Option Int) :
    Cache α :=
  let expiry : Option Nat :=
    match ttl with
    | some t => if t ≠ 0 ∧ t > 0 then some (now + t.toNat * 1000) else none
    | none => none
  mapSet c k { value := v, expiry := expiry }

/-- `YalidineMemoryDatabase.has`: like `get` but returns presence; also
performs the lazy eviction of an expired entry. -/
def dbHas {α : Type} (c : Cache α) (now : Nat) (k : String) : Bool × Cache α :=
  match cacheLookup c k with
  | none => (false, c)
  | some e =>
      if entryExpired e now then (false, mapDelete c k)
      else (true, c)

/-! ## Session facade (`Yalidine`) -/

/-- The `auth` credential pair. -/
structure AuthConfig where
  id : String
  token : String
deriving DecidableEq, Repr

/-- `YalidineConfig` as accepted by the constructor.  Absent optional
fields are `none`; JavaScript string falsiness is the empty string. -/
structure YalidineConfig where
  agent : String
  auth : Option AuthConfig
  baseURL : String
  timeout : Option Int
  retries : Option Int
  debug : Bool
deriving DecidableEq, Repr

/-- `YalidineError` (message and code). -/
structure YalidineError where
  message : String
  code : String
deriving DecidableEq, Repr

/-- Falsiness of `config.auth?.id`: `auth` missing or `id` empty. -/
def authIdFalsy : Option AuthConfig → Bool
  | none => true
  | some a => a.id == ""

/-- Falsiness of `config.auth?.token`. -/
def authTokenFalsy : Option AuthConfig → Bool
  | none => true
  | some a => a.token == ""

/-- The `config.timeout && config.timeout <= 0` guard: a present, truthy
(non-zero) timeout that is non-positive. -/
def timeoutInvalid : Option Int → Bool
  | some t => decide (t ≠ 0) && decide (t ≤ 0)
  | none => false

/-- The `config.retries && config.retries < 0` guard. -/
def retriesInvalid : Option Int → Bool
  | some r => decide (r ≠ 0) && decide (r < 0)
  | none => false

/-- `Yalidine.validateConfig`: the first violated constraint (as a
`YalidineError`), or `none` when the configuration is accepted. -/
def validateConfig (cfg : YalidineConfig) : Option YalidineError :=
  if cfg.agent = "" then
    some { message := "Agent is required", code := "INVALID_CONFIG" }
  else if ¬ (cfg.agent = "yalidine" ∨ cfg.agent = "goupex") then
    some { message := "Agent must be either \x22yalidine\x22 or \x22goupex\x22", code := "INVALID_CONFIG" }
  else if authIdFalsy cfg.auth then
    some { message := "API ID is required", code := "INVALID_CONFIG" }
  else if authTokenFalsy cfg.auth then
    some { message := "API token is required", code := "INVALID_CONFIG" }
  else if timeoutInvalid cfg.timeout then
    some { message := "Timeout must be positive", code := "INVALID_CONFIG" }
  else if retriesInvalid cfg.retries then
    some { message := "Retries must be non-negative", code := "INVALID_CONFIG" }
  else
    none

/-- `Yalidine.getDefaultBaseURL`. -/
def getDefaultBaseURL (agent : String) : String :=
  if agent = "yalidine" then "https://api.yalidine.app/v1"
  else if agent = "goupex" then "https://api.guepex.app/v1"
  else ""

/-- `x || d` defaulting for a JavaScript number: a falsy (absent or zero)
value is replaced by the default. -/
def jsOrInt : Option Int → Int → Int
  | some v, d => if v = 0 then d else v
  | none, d => d

/-- The configuration after the constructor fills defaults
(`Required<YalidineConfig>`). -/
structure ResolvedConfig where
  agent : String
  baseURL : String
  timeout : Int
  retries : Int
  debug : Bool
deriving DecidableEq, Repr

/-- The default-filling assignments of the `Yalidine` constructor:
`baseURL: config.baseURL || getDefaultBaseURL(agent)`,
`timeout: config.timeout || 30000`, `retries: config.retries || 3`. -/
def resolveConfig (cfg : YalidineConfig) : ResolvedConfig :=
  { agent := cfg.agent
    baseURL := if cfg.baseURL = "" then getDefaultBaseURL cfg.agent else cfg.baseURL
    timeout := jsOrInt cfg.timeout 30000
    retries := jsOrInt cfg.retries 3
    debug := cfg.debug }

/-- Observable effects of constructing a session: the outcome and the
number of transport and cache operations issued while constructing.  The
constructor only validates and builds objects, so both counts are zero on
every path. -/
structure ConstructResult where
  session : Except YalidineError ResolvedConfig
  transportCalls : Nat
  cacheOps : Nat
deriving DecidableEq, Repr

/-- The `Yalidine` constructor: validate, then fill defaults and build the
HTTP client and endpoint objects (no network or cache access). -/
def constructYalidine (cfg : YalidineConfig) : ConstructResult :=
  match validateConfig cfg with
  | some e => { session := .error e, transportCalls := 0, cacheOps := 0 }
  | none => { session := .ok (resolveConfig cfg), transportCalls := 0, cacheOps := 0 }

/-- `options.retries ?? this.config.retries ?? 3` in `HTTPClient.request`:
nullish coalescing keeps an explicit `0`. -/
def effectiveMaxRetries (optRetries : Option Int) (cfgRetries : Option Int) : Int :=
  optRetries.getD (cfgRetries.getD 3)

/-! ## `init` and `loadCachedData` -/

/-- Result of one injected operation during `init`: it returns a value or
throws. -/
inductive OpResult (α : Type) where
  | ok (a : α)
  | throws
deriving DecidableEq, Repr

/-- Behaviour of the collaborators touched by `loadCachedData`: the cache
read of the wilayas key, the HTTP fetch of `/wilayas`, and the cache
write. -/
structure InitBehavior where
  dbGetWilayas : OpResult (Option String)
  httpGetWilayas : OpResult String
  dbSetWilayas : OpResult Unit
deriving DecidableEq, Repr

/-- Operation counts observed during `init`. -/
structure InitOps where
  transportCalls : Nat
  cacheSets : Nat
deriving DecidableEq, Repr

/-- The `try` block of `Yalidine.loadCachedData`: read the cached wilayas;
when absent, fetch them over HTTP and cache them for 24 hours.  The first
component is the block's outcome (an exception from any collaborator
propagates to the surrounding catch), the second the operations performed
before the block ended. -/
def loadCachedDataTry (b : InitBehavior) : Except String Unit × InitOps :=
  match b.dbGetWilayas with
  | .throws => (.error "database.get failed", ⟨0, 0⟩)
  | .ok (some _) => (.ok (), ⟨0, 0⟩)
  | .ok none =>
      match b.httpGetWilayas with
      | .throws => (.error "http.get failed", ⟨1, 0⟩)
      | .ok _ =>
          match b.dbSetWilayas with
          | .throws => (.error "database.set failed", ⟨1, 1⟩)
          | .ok _ => (.ok (), ⟨1, 1⟩)

/-- `Yalidine.loadCachedData`: the catch clause swallows every failure of
the try block (optionally logging it), so the method always returns
normally; only the performed operations remain observable. -/
def loadCachedData (b : InitBehavior) : InitOps :=
  (loadCachedDataTry b).2

/-- The session state relevant to `init`. -/
structure SessionState where
  initialized : Bool
deriving DecidableEq, Repr

/-- `Yalidine.init`: return immediately when already initialized;
otherwise run `loadCachedData` and mark the session initialized (the catch
wrapping an `InitializationError` is unreachable because `loadCachedData`
never throws). -/
def initRun (b : InitBehavior) (s : SessionState) :
    Except YalidineError SessionState × InitOps :=
  if s.initialized then (.ok s, ⟨0, 0⟩)
  else (.ok { initialized := true }, loadCachedData b)

/-! ## Theorems -/

/-- C1: the quota update was claimed to retain the previous value of a
dimension whose header is absent; on the code, the fallback reads
`this.quotaStatus["x-hour-quota-left"]` — a property that does not exist
on the quota object — so an absent hour/day header stores `undefined`
instead of the previous 1000/10000.  This theorem evaluates
`updateQuotaStatus` at the claim's own scenario (second=4, minute=40
headers only) and shows the hour counter is `undefined`, not the pre-call
value. -/
theorem C1_quota_absent_header_not_retained :
    updateQuotaStatus initialQuotaStatus
        [("x-second-quota-left", "4"), ("x-minute-quota-left", "40")] 1
      = { secondQuotaLeft := .int 4, minuteQuotaLeft := .int 40,
          hourQuotaLeft := .undefined, dayQuotaLeft := .undefined, lastUpdate := 1 } ∧
    initialQuotaStatus.hourQuotaLeft = .int 1000 ∧
    initialQuotaStatus.dayQuotaLeft = .int 10000 ∧
    JSNum.undefined ≠ JSNum.int 1000 := by
  decide

/-- C3: with `maxRetries = 2` and a transport that fails with a network
error on every attempt, `request` makes exactly 3 attempts, propagates the
network failure, and sleeps 1000ms then 2000ms between attempts; the
backoff before the retry following failed attempt `a` is
`min(1000 * 2 ^ a, 10000)`, which caps at 10000 for later attempts. -/
theorem C3_retry_count_and_backoff :
    (request (fun _ => .networkFail) 2 0).attempts = 3 ∧
    (request (fun _ => .networkFail) 2 0).result = .error (.network "Network error") ∧
    (request (fun _ => .networkFail) 2 0).delays = [1000, 2000] ∧
    (∀ a : Nat, retryDelay a = min (1000 * 2 ^ a) 10000) ∧
    retryDelay 4 = 10000 ∧ retryDelay 10 = 10000 := by
  refine ⟨by decide, by decide, by decide, fun a => rfl, by decide, by decide⟩

/-- C4 counterexample: the claim says the rate-limit failure defaults to
60 when the retry-after header is "absent or unparseable"; on the code a
present but unparseable header is fed to `Number.parseInt`, which yields
`NaN`, not 60. -/
theorem C4_unparseable_retry_after_is_nan :
    (request (fun _ => .response 429 [("retry-after", "soon")] .empty) 3 0).result
      = .error (.rateLimit .nan) ∧
    JSNum.nan ≠ JSNum.int 60 := by
  decide

/-- C4 amended: a 429 response on the first attempt always results in
exactly one attempt (no retry, whatever the retry budget) and a rate-limit
failure carrying `getRetryAfter` of the response headers; the default 60
applies when the header is absent (an unparseable non-empty header gives
`NaN` instead). -/
theorem C4_rate_limit_never_retried (mr : Nat) (hs : Headers) :
    (request (fun _ => .response 429 hs .empty) mr 0).attempts = 1 ∧
    (request (fun _ => .response 429 hs .empty) mr 0).result
      = .error (.rateLimit (getRetryAfter hs)) ∧
    (headersGet hs "retry-after" = none → getRetryAfter hs = .int 60) := by
  refine ⟨?_, ?_, ?_⟩
  · simp [request, requestAux, runAttempt, interpretStatus, statusOk, isRetryableError]
  · simp [request, requestAux, runAttempt, interpretStatus, statusOk, isRetryableError]
  · intro h
    simp [getRetryAfter, h]

/-- C4 witness: concrete instance of `C4_rate_limit_never_retried` with an
absent retry-after header and a nonzero retry budget. -/
theorem C4_rate_limit_never_retried_witness :
    (request (fun _ => .response 429 [] .empty) 5 0).attempts = 1 ∧
    (request (fun _ => .response 429 [] .empty) 5 0).result
      = .error (.rateLimit (.int 60)) := by
  have h := C4_rate_limit_never_retried 5 []
  refine ⟨h.1, ?_⟩
  rw [h.2.1, h.2.2 rfl]

/-- C2 counterexample: the claim says a zero timeout is rejected at
construction; on the code the guard `config.timeout && config.timeout <= 0`
is skipped for the falsy value `0`, so construction succeeds and the zero
timeout is silently resolved to the default 30000. -/
theorem C2_zero_timeout_accepted :
    (constructYalidine
        { agent := "yalidine", auth := some { id := "id", token := "token" },
          baseURL := "", timeout := some 0, retries := none, debug := false }).session
      = .ok { agent := "yalidine", baseURL := "https://api.yalidine.app/v1",
              timeout := 30000, retries := 3, debug := false } := by
  decide

/-- If `validateConfig` accepts a configuration, every constraint it
checks holds: the agent is one of the two known values, the credentials
are present, and the truthy timeout/retries guards are false. -/
theorem validateConfig_none_sound (cfg : YalidineConfig)
    (h : validateConfig cfg = none) :
    (cfg.agent = "yalidine" ∨ cfg.agent = "goupex") ∧
    authIdFalsy cfg.auth = false ∧
    authTokenFalsy cfg.auth = false ∧
    timeoutInvalid cfg.timeout = false ∧
    retriesInvalid cfg.retries = false := by
  unfold validateConfig at h
  split_ifs at h with h1 h2 h3 h4 h5 h6
  simp_all

/-- C2 amended: constructing a session with an unknown agent, a missing
credential id or token, a *negative* timeout, or negative retries fails
with a configuration error, and construction performs zero transport and
zero cache operations (an explicit zero timeout is treated as unset and
resolved to the default instead of being rejected). -/
theorem C2_invalid_config_rejected (cfg : YalidineConfig)
    (h : ¬ (cfg.agent = "yalidine" ∨ cfg.agent = "goupex")
       ∨ authIdFalsy cfg.auth = true
       ∨ authTokenFalsy cfg.auth = true
       ∨ (∃ t, cfg.timeout = some t ∧ t < 0)
       ∨ (∃ r, cfg.retries = some r ∧ r < 0)) :
    (∃ e, (constructYalidine cfg).session = .error e) ∧
    (constructYalidine cfg).transportCalls = 0 ∧
    (constructYalidine cfg).cacheOps = 0 := by
  cases hvc : validateConfig cfg with
  | none =>
      exfalso
      obtain ⟨hag, hid, htok, htm, hrt⟩ := validateConfig_none_sound cfg hvc
      rcases h with hA | hB | hC | hD | hE
      · exact hA hag
      · rw [hid] at hB; exact Bool.false_ne_true hB
      · rw [htok] at hC; exact Bool.false_ne_true hC
      · obtain ⟨t, ht, hlt⟩ := hD
        rw [ht] at htm
        simp [timeoutInvalid] at htm
        omega
      · obtain ⟨r, hr, hlt⟩ := hE
        rw [hr] at hrt
        simp [retriesInvalid] at hrt
        omega
  | some e =>
      refine ⟨⟨e, ?_⟩, ?_, ?_⟩ <;> simp [constructYalidine, hvc]

/-- C2 witness: an unknown agent string is rejected with zero transport
and cache operations. -/
theorem C2_invalid_config_rejected_witness :
    (∃ e, (constructYalidine
        { agent := "dhl", auth := some { id := "id", token := "token" },
          baseURL := "", timeout := none, retries := none, debug := false }).session
      = .error e) ∧
    (constructYalidine
        { agent := "dhl", auth := some { id := "id", token := "token" },
          baseURL := "", timeout := none, retries := none, debug := false }).transportCalls = 0 ∧
    (constructYalidine
        { agent := "dhl", auth := some { id := "id", token := "token" },
          baseURL := "", timeout := none, retries := none, debug := false }).cacheOps = 0 :=
  C2_invalid_config_rejected _ (Or.inl (by decide))

/-- C10: a session constructed with `retries: 0` resolves the engine-level
default to 3 (the `config.retries || 3` fallback treats the falsy 0 as
unset), while the request engine's own per-request override
(`options.retries ?? config.retries ?? 3`) does distinguish an explicit 0
from unset. -/
theorem C10_zero_retries_resolves_to_default (cfg : YalidineConfig)
    (h : cfg.retries = some 0) :
    (resolveConfig cfg).retries = 3 ∧
    effectiveMaxRetries none (some (resolveConfig cfg).retries) = 3 ∧
    effectiveMaxRetries (some 0) (some (resolveConfig cfg).retries) = 0 := by
  simp [resolveConfig, jsOrInt, h, effectiveMaxRetries]

/-- C10 witness: concrete session config with `retries: 0`. -/
theorem C10_zero_retries_resolves_to_default_witness :
    (resolveConfig
        { agent := "yalidine", auth := some { id := "id", token := "token" },
          baseURL := "", timeout := none, retries := some 0, debug := false }).retries = 3 ∧
    effectiveMaxRetries none (some (resolveConfig
        { agent := "yalidine", auth := some { id := "id", token := "token" },
          baseURL := "", timeout := none, retries := some 0, debug := false }).retries) = 3 ∧
    effectiveMaxRetries (some 0) (some (resolveConfig
        { agent := "yalidine", auth := some { id := "id", token := "token" },
          baseURL := "", timeout := none, retries := some 0, debug := false }).retries) = 0 :=
  C10_zero_retries_resolves_to_default _ rfl

/-- A fresh binding shadows everything else in the store. -/
theorem cacheLookup_mapSet {α : Type} (c : Cache α) (k : String) (e : CacheEntry α) :
    cacheLookup (mapSet c k e) k = some e := by
  simp [cacheLookup, mapSet]

/-- After `Map.delete(key)` the key has no binding left. -/
theorem cacheLookup_mapDelete {α : Type} (c : Cache α) (k : String) :
    cacheLookup (mapDelete c k) k = none := by
  simp only [cacheLookup, mapDelete, Option.map_eq_none', List.find?_eq_none,
    List.mem_filter]
  intro x hx
  simpa using hx.2

/-- C5: for every key, value and TTL `t > 0`, `set` then an immediate
`get` returns the value; once the clock has advanced past the expiry
instant `now + t*1000`, `get` returns null, `has` returns false, and the
`get` physically removes the expired entry from the store. -/
theorem C5_cache_ttl_expiry (c : Cache Nat) (k : String) (v : Nat) (t : Int)
    (now now2 : Nat) (ht : 0 < t) (hpast : now + t.toNat * 1000 < now2) :
    (dbGet (dbSet c now k v (some t)) now k).1 = some v ∧
    (dbGet (dbSet c now k v (some t)) now2 k).1 = none ∧
    (dbHas (dbSet c now k v (some t)) now2 k).1 = false ∧
    cacheLookup (dbGet (dbSet c now k v (some t)) now2 k).2 k = none := by
  have ht0 : t ≠ 0 := by omega
  have hset : dbSet c now k v (some t)
      = mapSet c k { value := v, expiry := some (now + t.toNat * 1000) } := by
    simp [dbSet, ht, ht0]
  have hlive : entryExpired
      (⟨v, some (now + t.toNat * 1000)⟩ : CacheEntry Nat) now = false := by
    simp [entryExpired]
  have hdead : entryExpired
      (⟨v, some (now + t.toNat * 1000)⟩ : CacheEntry Nat) now2 = true := by
    simp [entryExpired]
    omega
  rw [hset]
  refine ⟨?_, ?_, ?_, ?_⟩
  · simp [dbGet, cacheLookup_mapSet, hlive]
  · simp [dbGet, cacheLookup_mapSet, hdead]
  · simp [dbHas, cacheLookup_mapSet, hdead]
  · simp [dbGet, cacheLookup_mapSet, hdead, cacheLookup_mapDelete]

/-- C5 witness: key `"k"`, value 7, TTL 2 seconds, read at time 0 and at
time 3000ms (past the 2000ms expiry). -/
theorem C5_cache_ttl_expiry_witness :
    (dbGet (dbSet ([] : Cache Nat) 0 "k" 7 (some 2)) 0 "k").1 = some 7 ∧
    (dbGet (dbSet ([] : Cache Nat) 0 "k" 7 (some 2)) 3000 "k").1 = none ∧
    (dbHas (dbSet ([] : Cache Nat) 0 "k" 7 (some 2)) 3000 "k").1 = false ∧
    cacheLookup (dbGet (dbSet ([] : Cache Nat) 0 "k" 7 (some 2)) 3000 "k").2 "k" = none :=
  C5_cache_ttl_expiry [] "k" 7 2 0 3000 (by decide) (by decide)

/-- C6: once a first `init` has succeeded (which leaves the session
initialized), a second `init` with any collaborator behaviour returns
immediately: it succeeds with the same state and performs zero transport
calls and zero cache writes. -/
theorem C6_init_idempotent (b b2 : InitBehavior) (s1 : SessionState)
    (h : (initRun b ⟨false⟩).1 = .ok s1) :
    (initRun b2 s1).1 = .ok s1 ∧
    (initRun b2 s1).2.transportCalls = 0 ∧
    (initRun b2 s1).2.cacheSets = 0 := by
  cases s1 with
  | mk flag =>
      simp [initRun] at h
      subst h
      simp [initRun]

/-- C6 witness: a concrete first `init` from the uninitialized state,
then a second call. -/
theorem C6_init_idempotent_witness :
    (initRun ⟨.ok none, .ok "w", .ok ()⟩ ⟨true⟩).1 = .ok ⟨true⟩ ∧
    (initRun ⟨.ok none, .ok "w", .ok ()⟩ ⟨true⟩).2.transportCalls = 0 ∧
    (initRun ⟨.ok none, .ok "w", .ok ()⟩ ⟨true⟩).2.cacheSets = 0 :=
  C6_init_idempotent ⟨.ok none, .ok "w", .ok ()⟩ ⟨.ok none, .ok "w", .ok ()⟩ ⟨true⟩ rfl

/-- C7: whatever the cache store and the reference-data fetch do during
`init` — the cache read throwing, the HTTP request failing, the cache
write throwing, or all three at once — `init` completes successfully and
marks the session initialized; `loadCachedData` swallows the failure. -/
theorem C7_init_swallows_cache_failures (b : InitBehavior) :
    (initRun b ⟨false⟩).1 = .ok ⟨true⟩ ∧
    (initRun ⟨.throws, .throws, .throws⟩ ⟨false⟩).1 = .ok ⟨true⟩ := by
  constructor <;> simp [initRun]

/-- C7 witness: instance of `C7_init_swallows_cache_failures` where the
HTTP fetch of the reference data throws. -/
theorem C7_init_swallows_cache_failures_witness :
    (initRun ⟨.ok none, .throws, .ok ()⟩ ⟨false⟩).1 = .ok ⟨true⟩ :=
  (C7_init_swallows_cache_failures ⟨.ok none, .throws, .ok ()⟩).1

/-- C8: on every attempt that receives a response, the quota tracker is
updated from that response's headers before the status code is
interpreted: the post-attempt quota state equals
`updateQuotaStatus` of the headers for every status and body, and the
post-failure quota snapshot of a 429 or 500 request reflects the
response's headers. -/
theorem C8_quota_updated_on_every_response (q : QuotaStatus) (now status mr : Nat)
    (hs : Headers) (body : Body) :
    (runAttempt q now (.response status hs body)).2 = updateQuotaStatus q hs now ∧
    (request (fun _ => .response 429 hs .empty) mr 0).quota
      = updateQuotaStatus initialQuotaStatus hs 0 ∧
    (request (fun _ => .response 500 hs .empty) mr 0).quota
      = updateQuotaStatus initialQuotaStatus hs 0 := by
  refine ⟨?_, ?_, ?_⟩
  · cases body <;> simp [runAttempt]
  · simp [request, requestAux, runAttempt, interpretStatus, statusOk, isRetryableError]
  · simp [request, requestAux, runAttempt, interpretStatus, statusOk, isRetryableError]

/-- C8 witness: a 429 response carrying a quota header updates the tracker
even though the attempt fails. -/
theorem C8_quota_updated_on_every_response_witness :
    (runAttempt initialQuotaStatus 0
        (.response 429 [("x-second-quota-left", "4")] .empty)).2
      = updateQuotaStatus initialQuotaStatus [("x-second-quota-left", "4")] 0 :=
  (C8_quota_updated_on_every_response initialQuotaStatus 0 429 3
    [("x-second-quota-left", "4")] .empty).1

/-- C9: an empty body yields a `null` payload (returned as the data of a
2xx response), while a non-empty unparseable body is an API error carrying
the raw response status — even for a 2xx status — and is never retried
(exactly one attempt regardless of the retry budget). -/
theorem C9_body_parsing (mr status : Nat) (hs : Headers) :
    (request (fun _ => .response status hs .malformed) mr 0).result
      = .error (.apiError "Invalid JSON response from API" status) ∧
    (request (fun _ => .response status hs .malformed) mr 0).attempts = 1 ∧
    (statusOk status = true →
      (request (fun _ => .response status hs .empty) mr 0).result
        = .ok { data := .null, status := status, headers := hs,
                quota := updateQuotaStatus initialQuotaStatus hs 0 }) := by
  refine ⟨?_, ?_, ?_⟩
  · simp [request, requestAux, runAttempt, isRetryableError]
  · simp [request, requestAux, runAttempt, isRetryableError]
  · intro hok
    simp [request, requestAux, runAttempt, interpretStatus, hok]

/-- C9 witness: a 200 response with an unparseable body fails as an API
error with status 200; a 200 response with an empty body succeeds with a
`null` payload. -/
theorem C9_body_parsing_witness :
    (request (fun _ => .response 200 [] .malformed) 3 0).result
      = .error (.apiError "Invalid JSON response from API" 200) ∧
    (request (fun _ => .response 200 [] .empty) 3 0).result
      = .ok { data := .null, status := 200, headers := [],
              quota := updateQuotaStatus initialQuotaStatus [] 0 } := by
  have h := C9_body_parsing 3 200 []
  exact ⟨h.1, h.2.2 (by decide)⟩

end Yalidine
